import Mathlib

/-!
Verification of the Video Caption Extraction Pipeline
(repository GcsReadTextFromVideo, file src/app/main.py).

The Python code is shallowly embedded in Lean.  Text is modelled as lists of
Unicode code points (`List Nat`), so that Python string primitives
(`str.lower`, `str.replace`, `" ".join`, `str.strip`, substring test,
`re.match`) become executable Lean functions with easy arithmetic proofs.
`Char.toNat` converts Lean string literals into this model at the boundary.
Python `str.lower` and the regex class `\w` are modelled on the ASCII range,
which covers every string constant appearing in the program.

Fallible / effectful code is embedded with explicit outcomes: the GCS and
yt-dlp downloads return an `Except` together with booleans recording whether
a local file survives the call, and the OCR loop of `process_video_local` is
a recursive function over the list of decoded frames that also records which
frame positions were submitted to the recognizer and whether the temp file
was removed.
-/

/-- Convert a Lean string literal to the code-point model of Python strings. -/
def cp (s : String) : List Nat := s.data.map Char.toNat

/-- Python `str.lower`, per code point (ASCII range; `A`..`Z` is 65..90). -/
def lowerCp (n : Nat) : Nat := if 65 ≤ n ∧ n ≤ 90 then n + 32 else n

/-- Python `s.replace(" ", "")`: remove space (code point 32) characters only. -/
def removeSpaces (l : List Nat) : List Nat := l.filter (fun n => n != 32)

/-- The source's normalization, `text.lower().replace(" ", "")`
(src/app/main.py line 25 and line 55): lower-case, then remove spaces. -/
def pyNormalize (l : List Nat) : List Nat := (l.map lowerCp).filter (fun n => n != 32)

/-- ASCII whitespace, as removed by Python `str.strip` and matched by `\s`:
space, tab, linefeed, carriage return, vertical tab, form feed. -/
def isSpaceCp (n : Nat) : Bool :=
  (n == 32) || (n == 9) || (n == 10) || (n == 13) || (n == 11) || (n == 12)

/-- The spec's normalization rule, stated from the spec's words:
"lower-case, then remove all whitespace characters". -/
def specNormalize (l : List Nat) : List Nat := (l.map lowerCp).filter (fun n => !(isSpaceCp n))

/-- Python `str.strip`: drop whitespace from both ends. -/
def stripCp (l : List Nat) : List Nat :=
  ((l.dropWhile isSpaceCp).reverse.dropWhile isSpaceCp).reverse

/-- Python `" ".join(...)` on the code-point model. -/
def intercalateSp : List (List Nat) → List Nat
  | [] => []
  | [l] => l
  | l :: rest => l ++ 32 :: intercalateSp rest

/-- Constant `UNWANTED = ["tiktok", "tik tok", "original sound", "music"]`
(src/app/main.py line 16). -/
def UNWANTED : List (List Nat) := [cp "tiktok", cp "tik tok", cp "original sound", cp "music"]

/-- Python's `needle in hay` substring test. -/
def isSubstr (needle hay : List Nat) : Bool :=
  match hay with
  | [] => needle.isEmpty
  | _ :: t => needle.isPrefixOf hay || isSubstr needle t

/-- The regex class `[\w\d_]` of the username pattern, on the ASCII range:
letters, digits, underscore (code point 95). -/
def isWordCp (n : Nat) : Bool :=
  (97 ≤ n && n ≤ 122) || (65 ≤ n && n ≤ 90) || (48 ≤ n && n ≤ 57) || (n == 95)

/-- Python `re.match(r"@[\w\d_]+", l)`: anchored at the start of the string, the
match exists iff the first code point is `@` (64) and the second is a word
character. -/
def usernameMatch (l : List Nat) : Bool :=
  match l with
  | a :: c :: _ => a == 64 && isWordCp c
  | _ => false

/-- The blocklist test inside `is_unwanted`:
`any(bad.replace(" ", "") in text_norm for bad in UNWANTED)`. -/
def blocklistHit (text : List Nat) : Bool :=
  UNWANTED.any (fun bad => isSubstr (removeSpaces bad) (pyNormalize text))

/-- Function `is_unwanted` (src/app/main.py lines 24..30), mirroring the Python
if/return chain on `text_norm = text.lower().replace(" ", "")`. -/
def is_unwanted (text : List Nat) : Bool :=
  let text_norm := pyNormalize text
  if UNWANTED.any (fun bad => isSubstr (removeSpaces bad) text_norm) then true
  else if usernameMatch text_norm then true
  else false

example : pyNormalize (cp "Hello World") = cp "helloworld" := by decide
example : is_unwanted (cp "@ John Doe") = true := by decide
example : is_unwanted (cp "hello @handle") = false := by decide
example : is_unwanted (cp "Tik Tok dance") = true := by decide
example : pyNormalize (cp "tik\ttok") ≠ specNormalize (cp "tik\ttok") := by decide

/-! ## Region filter and per-frame caption reduction (`clean_text`) -/

/-- Constant `FRAME_INTERVAL = 30` (src/app/main.py line 13). -/
def FRAME_INTERVAL : Nat := 30

/-- Constant `BOTTOM_IGNORE_` ratio `= 0.25` (src/app/main.py line 14); the Python
float literal is modelled as the exact rational it denotes. -/
def BOTTOM_IGNORE_FRAC : ℚ := 0.25

/-- Constant `TOP_IGNORE_` ratio `= 0.15` (src/app/main.py line 15). -/
def TOP_IGNORE_FRAC : ℚ := 0.15

/-- Constant `MAX_VIDEO_SIZE = 512 * 1024 * 1024` bytes (src/app/main.py line 17). -/
def MAX_VIDEO_SIZE : Nat := 512 * 1024 * 1024

/-- A bounding-polygon vertex of the recognizer response (integer pixels). -/
structure Vertex where
  x : ℤ
  y : ℤ

/-- Field `word.bounding_box` of the recognizer response. -/
structure BoundingPoly where
  vertices : List Vertex

/-- One symbol of a recognized word: `s.text`. -/
structure OcrSymbol where
  text : List Nat

/-- A recognized word: its symbols and bounding polygon. -/
structure OcrWord where
  symbols : List OcrSymbol
  bounding_box : BoundingPoly

/-- A recognizer paragraph: `para.words`. -/
structure OcrPara where
  words : List OcrWord

/-- A recognizer block: `block.paragraphs`. -/
structure OcrBlock where
  paragraphs : List OcrPara

/-- A recognizer page: `page.blocks`. -/
structure OcrPage where
  blocks : List OcrBlock

/-- The recognizer's full text layout result (the source reads it as
`response.full_text_` annotation `.pages`); that field name is shortened
here. -/
structure TextAnn where
  pages : List OcrPage

/-- Python `"".join(s.text for s in word.symbols)` (src/app/main.py line 39). -/
def wordText (w : OcrWord) : List Nat := (w.symbols.map OcrSymbol.text).flatten

/-- Python `min(v.y for v in word.bounding_box.vertices)` (src/app/main.py line 40).
Python's `min` raises on an empty sequence; the recognizer always returns
four vertices, so the empty case is unreachable and modelled as 0. -/
def minY (vs : List Vertex) : ℤ :=
  match vs with
  | [] => 0
  | v :: rest => rest.foldl (fun m u => min m u.y) v.y

/-- The region filter applied to each word (src/app/main.py lines 41..44):
the word survives iff neither `ymin < frame_height * TOP` ratio (0.15) nor
`ymin > frame_height * (1 - BOTTOM` ratio `)` (that is, 0.75) triggers a
`continue`.  Both ratios are exact hundredths, so the comparisons are the
integer comparisons scaled by 100; `topExclude_iff` and `botExclude_iff`
below restate them over ℚ in the source's form. -/
def keepWord (ymin frame_height : ℤ) : Bool :=
  !(decide (100 * ymin < frame_height * 15)) &&
  !(decide (100 * ymin > frame_height * (100 - 25)))

/-- The scaled integer test of `keepWord`'s top exclusion agrees with the
source's rational-valued test `ymin < frame_height * 0.15`. -/
theorem topExclude_iff (ymin frame_height : ℤ) :
    (ymin : ℚ) < (frame_height : ℚ) * TOP_IGNORE_FRAC ↔
      100 * ymin < frame_height * 15 := by
  rw [show TOP_IGNORE_FRAC = 15 / 100 by norm_num [TOP_IGNORE_FRAC]]
  rw [mul_div_assoc', lt_div_iff₀ (by norm_num : (0:ℚ) < 100)]
  rw [show (ymin : ℚ) * 100 = ((100 * ymin : ℤ) : ℚ) by push_cast; ring]
  rw [show (frame_height : ℚ) * 15 = ((frame_height * 15 : ℤ) : ℚ) by push_cast; ring]
  exact Int.cast_lt

/-- The scaled integer test of `keepWord`'s bottom exclusion agrees with the
source's rational-valued test `ymin > frame_height * (1 - 0.25)`. -/
theorem botExclude_iff (ymin frame_height : ℤ) :
    (ymin : ℚ) > (frame_height : ℚ) * (1 - BOTTOM_IGNORE_FRAC) ↔
      100 * ymin > frame_height * (100 - 25) := by
  rw [show (1 : ℚ) - BOTTOM_IGNORE_FRAC = 75 / 100 by norm_num [BOTTOM_IGNORE_FRAC]]
  rw [mul_div_assoc', gt_iff_lt, div_lt_iff₀ (by norm_num : (0:ℚ) < 100)]
  rw [show (ymin : ℚ) * 100 = ((100 * ymin : ℤ) : ℚ) by push_cast; ring]
  rw [show (frame_height : ℚ) * 75 = ((frame_height * (100 - 25) : ℤ) : ℚ) by push_cast; ring]
  exact Int.cast_lt

/-- The per-paragraph body of `clean_text` (src/app/main.py lines 37..50):
collect surviving word texts, join with single spaces, and keep the line
unless it is empty or `is_unwanted`. -/
def paraLine (frame_height : ℤ) (p : OcrPara) : Option (List Nat) :=
  let line_words :=
    (p.words.filter (fun w => keepWord (minY w.bounding_box.vertices) frame_height)).map wordText
  if line_words.isEmpty then none
  else
    let line_text := intercalateSp line_words
    if is_unwanted line_text then none else some line_text

/-- The `words` list accumulated by `clean_text`'s page/block/paragraph
loops, in original order. -/
def frameLines (ann : TextAnn) (frame_height : ℤ) : List (List Nat) :=
  ((ann.pages.flatMap OcrPage.blocks).flatMap OcrBlock.paragraphs).filterMap (paraLine frame_height)

/-- The intra-frame dedup loop of `clean_text` (src/app/main.py lines 52..57):
keep the first occurrence of each normalized form, where `seen` holds the
normalized forms already emitted. -/
def dedupGo : List (List Nat) → List (List Nat) → List (List Nat)
  | [], _ => []
  | l :: rest, seen =>
    let norm := pyNormalize l
    if norm ∈ seen then dedupGo rest seen else l :: dedupGo rest (norm :: seen)

/-- Function `clean_text(response, frame_height)` (src/app/main.py lines 33..59). -/
def clean_text (ann : TextAnn) (frame_height : ℤ) : List Nat :=
  intercalateSp (dedupGo (frameLines ann frame_height) [])

/-- A one-word, one-paragraph recognizer result placing text `t` with its
topmost vertex at height `y` — used to build concrete test frames. -/
def oneLineAnn (t : List Nat) (y : ℤ) : TextAnn :=
  ⟨[⟨[⟨[⟨[⟨[⟨t⟩], ⟨[⟨0, y⟩]⟩⟩]⟩]⟩]⟩]⟩

example : clean_text (oneLineAnn (cp "HELLO") 50) 100 = cp "HELLO" := by decide
example : clean_text (oneLineAnn (cp "HELLO") 80) 100 = [] := by decide
example : keepWord 80 100 = false := by decide
example : keepWord 15 100 = true := by decide

/-! ## Normalization lemmas and claims C3, C8, C9, C10 -/

/-- Lowering a code point is idempotent. -/
theorem lowerCp_lowerCp (n : Nat) : lowerCp (lowerCp n) = lowerCp n := by
  unfold lowerCp
  split <;> (try split) <;> omega

/-- Lowering a code point yields 32 (space) only on 32 itself. -/
theorem lowerCp_eq32_iff (n : Nat) : lowerCp n = 32 ↔ n = 32 := by
  unfold lowerCp
  split <;> omega

/-- Lowering never creates or destroys a space character. -/
theorem lowerCp_bne32 (n : Nat) : (lowerCp n != 32) = (n != 32) := by
  rw [Bool.eq_iff_iff]
  simp only [bne_iff_ne, ne_eq]
  unfold lowerCp
  split <;> omega

/-- Claim C9: the source's normalization (lower-case, then remove spaces)
is idempotent: normalizing an already-normalized string changes nothing. -/
theorem c9_normalize_idempotent (l : List Nat) :
    pyNormalize (pyNormalize l) = pyNormalize l := by
  unfold pyNormalize
  induction l with
  | nil => rfl
  | cons a t ih =>
    by_cases hp : lowerCp a = 32 <;>
      simp [hp, lowerCp_lowerCp, lowerCp_eq32_iff, ih]

/-- Claim C8 (amended): the normalized form used in blocklist matching and
intra-frame dedup is the string lower-cased with all space characters
(code point 32) removed — equivalently, spaces removed first and the rest
lower-cased; other whitespace such as tab is kept. -/
theorem c8_normalization_amended (l : List Nat) :
    pyNormalize l = (removeSpaces l).map lowerCp := by
  unfold pyNormalize removeSpaces
  induction l with
  | nil => rfl
  | cons a t ih =>
    by_cases hp : a = 32 <;>
      simp [hp, lowerCp_eq32_iff, ih]

/-- Claim C8 counterexample: on a string containing a tab, the source's
normalization differs from the spec's "remove all whitespace" rule, and a
blocklisted phrase split by a tab is not caught by `is_unwanted`. -/
theorem c8_counterexample :
    pyNormalize (cp "tik\ttok") ≠ specNormalize (cp "tik\ttok") ∧
      is_unwanted (cp "tik\ttok") = false := by
  decide

/-- Claim C3 counterexample: with the default fractions the code excludes a
word at y = 80 in a frame of height 100 (because 80 > 0.75 * 100), although
the claimed characterization (false iff y < 0.15*H or y > 0.85*H) would
keep it. -/
theorem c3_counterexample :
    keepWord 80 100 = false ∧
      ¬ ((80 : ℚ) < 0.15 * 100 ∨ (80 : ℚ) > 0.85 * 100) := by
  refine ⟨by decide, ?_⟩
  push_neg
  constructor <;> norm_num

/-- Claim C3 (amended): under the default fractions (top 0.15, bottom 0.25)
the region filter keeps a word iff it is not excluded, and keep(y, H) is
false iff y < 0.15*H or y > 0.75*H (the bottom band starts at
(1 - 0.25) * H = 0.75 * H, not 0.85 * H). -/
theorem c3_region_filter_amended (y H : ℤ) :
    keepWord y H = false ↔ ((y : ℚ) < 0.15 * (H : ℚ) ∨ (y : ℚ) > 0.75 * (H : ℚ)) := by
  have ht : ((y : ℚ) < 0.15 * (H : ℚ)) ↔ 100 * y < H * 15 := by
    rw [mul_comm]
    exact topExclude_iff y H
  have hb : ((y : ℚ) > 0.75 * (H : ℚ)) ↔ 100 * y > H * (100 - 25) := by
    rw [mul_comm, show (0.75 : ℚ) = 1 - BOTTOM_IGNORE_FRAC by norm_num [BOTTOM_IGNORE_FRAC]]
    exact botExclude_iff y H
  rw [ht, hb]
  unfold keepWord
  rcases lt_or_le (100 * y) (H * 15) with h1 | h1 <;>
    rcases lt_or_le (H * (100 - 25)) (100 * y) with h2 | h2 <;>
      simp [h1, h2, not_lt.mpr, gt_iff_lt]

/-- Claim C10: the username filter runs on the lower-cased, space-removed
form of a line, anchored at its start: `is_unwanted` is the disjunction of
the blocklist test and the username test, and the username test succeeds
exactly when the normalized line starts with `@` (64) followed by a word
character; "@ John Doe" is dropped while "hello @handle" is kept. -/
theorem c10_username_filter :
    (∀ line : List Nat,
        is_unwanted line = (blocklistHit line || usernameMatch (pyNormalize line))) ∧
    (∀ l : List Nat,
        usernameMatch l = true ↔ ∃ c rest, l = 64 :: c :: rest ∧ isWordCp c = true) ∧
    is_unwanted (cp "@ John Doe") = true ∧
    is_unwanted (cp "hello @handle") = false := by
  refine ⟨?_, ?_, by decide, by decide⟩
  · intro line
    unfold is_unwanted blocklistHit
    cases hA : UNWANTED.any (fun bad => isSubstr (removeSpaces bad) (pyNormalize line)) <;>
      cases hB : usernameMatch (pyNormalize line) <;> simp [hA, hB]
  · intro l
    match l with
    | [] => simp [usernameMatch]
    | [a] => simp [usernameMatch]
    | a :: c :: r =>
      simp only [usernameMatch, Bool.and_eq_true, beq_iff_eq]
      constructor
      · rintro ⟨rfl, hw⟩
        exact ⟨c, r, rfl, hw⟩
      · rintro ⟨c', rest, heq, hw⟩
        cases heq
        exact ⟨rfl, hw⟩

/-! ## The OCR loop of `process_video_local` and claims C1, C2, C4 -/

/-- Outcome of the recognizer call for one frame: `noText` models a falsy
`response.full_text_` annotation, `found` a non-empty one, and `fatal` an
exception raised by the recognizer (e.g. quota/auth), which the loop does
not catch. -/
inductive RecogOut where
  | noText : RecogOut
  | found : TextAnn → RecogOut
  | fatal : RecogOut

/-- One decoded frame: whether `cv2.imencode(".jpg", frame)` succeeds, and
what the recognizer would return for it. -/
structure Frame where
  encodeOk : Bool
  recog : RecogOut

/-- Result of the `while True` loop of `process_video_local`
(src/app/main.py lines 156..174): the captions appended to `results`, the
decoded-stream positions of the frames submitted to the recognizer, and
whether a recognizer exception aborted the loop (discarding `results`). -/
structure LoopOut where
  results : List (List Nat)
  submitted : List Nat
  fatalErr : Bool

/-- The loop body of `process_video_local`, one recursive step per decoded
frame.  `frame_num` is the source's counter; `pos` is the true position in
the decoded stream (they diverge exactly when `cv2.imencode` fails, because
the source's `continue` skips the `frame_num += 1` at the loop's bottom).
`last` is `last_text`.  On `fatal` the exception propagates, so the loop's
accumulated captions are discarded at that point. -/
def sampleLoop (H : ℤ) : List Frame → Nat → Nat → Option (List Nat) → LoopOut
  | [], _, _, _ => ⟨[], [], false⟩
  | f :: rest, frame_num, pos, last =>
    if frame_num % FRAME_INTERVAL = 0 then
      if f.encodeOk = false then
        sampleLoop H rest frame_num (pos + 1) last
      else
        match f.recog with
        | RecogOut.fatal => ⟨[], [pos], true⟩
        | RecogOut.noText =>
          let out := sampleLoop H rest (frame_num + 1) (pos + 1) last
          ⟨out.results, pos :: out.submitted, out.fatalErr⟩
        | RecogOut.found ann =>
          let text := clean_text ann H
          if stripCp text ≠ [] ∧ some text ≠ last then
            let out := sampleLoop H rest (frame_num + 1) (pos + 1) (some text)
            ⟨text :: out.results, pos :: out.submitted, out.fatalErr⟩
          else
            let out := sampleLoop H rest (frame_num + 1) (pos + 1) last
            ⟨out.results, pos :: out.submitted, out.fatalErr⟩
    else
      sampleLoop H rest (frame_num + 1) (pos + 1) last

/-- Terminal errors of `process_video_local`: the `ValueError` raised when
OpenCV cannot open the file, and a propagated recognizer exception. -/
inductive PvErr where
  | unreadableVideo : PvErr
  | recognizerErr : PvErr

/-- The acquired local video as the decoder sees it: whether
`cap.isOpened()` holds, the frame height, and the decoded frame stream. -/
structure VideoFile where
  openOk : Bool
  height : ℤ
  frames : List Frame

/-- Function `process_video_local` (src/app/main.py lines 144..180).  The
second component records whether the temp file was removed: the
`isOpened` check raises BEFORE the `try`/`finally`, so on that path the
`finally` block (release + `os.remove`) never runs. -/
def process_video_local (v : VideoFile) : Except PvErr (List (List Nat)) × Bool :=
  if v.openOk = false then
    (Except.error PvErr.unreadableVideo, false)
  else
    let out := sampleLoop v.height v.frames 0 0 none
    if out.fatalErr then (Except.error PvErr.recognizerErr, true)
    else (Except.ok out.results, true)

/-- A frame whose recognizer result is the single line `t` at height 50 of
a 100-pixel frame (inside the kept band). -/
def textFrame (t : List Nat) : Frame := ⟨true, RecogOut.found (oneLineAnn t 50)⟩

/-- A decoded frame with no recognized text. -/
def blankFrame : Frame := ⟨true, RecogOut.noText⟩

/-- A 31-frame stream whose sampled frames (0 and 30) read "HELLO" and then
"hello": same normalized content, different raw strings. -/
def vidHello : VideoFile :=
  ⟨true, 100, textFrame (cp "HELLO") :: (List.replicate 29 blankFrame ++ [textFrame (cp "hello")])⟩

example : (process_video_local vidHello).1 = Except.ok [cp "HELLO", cp "hello"] := by rfl

/-- Invariant of the OCR loop: consecutive accumulated captions differ as
raw strings, and the first caption produced differs from `last`. -/
theorem sampleLoop_chain (H : ℤ) (fs : List Frame) :
    ∀ (n pos : Nat) (last : Option (List Nat)),
      List.Chain' (fun a b => a ≠ b) (sampleLoop H fs n pos last).results ∧
      ∀ t, (sampleLoop H fs n pos last).results.head? = some t → some t ≠ last := by
  induction fs with
  | nil =>
    intro n pos last
    refine ⟨by simp [sampleLoop], ?_⟩
    intro t ht
    simp [sampleLoop] at ht
  | cons f rest ih =>
    intro n pos last
    simp only [sampleLoop]
    split
    · split
      · exact ih n (pos + 1) last
      · split
        · refine ⟨by simp, ?_⟩
          intro t ht
          simp at ht
        · exact ih (n + 1) (pos + 1) last
        · rename_i ann hfr
          by_cases hcond :
              stripCp (clean_text ann H) ≠ [] ∧ some (clean_text ann H) ≠ last
          · rw [if_pos hcond]
            obtain ⟨hc, hh⟩ := ih (n + 1) (pos + 1) (some (clean_text ann H))
            constructor
            · show List.Chain' _ (clean_text ann H :: _)
              rw [List.chain'_cons']
              refine ⟨?_, hc⟩
              intro b hb
              have hbne := hh b hb
              intro heq
              exact hbne (by rw [heq])
            · intro t ht
              have : t = clean_text ann H := by simpa using ht.symm
              rw [this]
              exact hcond.2
          · rw [if_neg hcond]
            exact ih (n + 1) (pos + 1) last
    · exact ih (n + 1) (pos + 1) last

/-- Claim C1 (amended): cross-frame suppression compares raw caption
strings, not normalized ones: a frame's reduced caption is suppressed iff
it is empty after stripping or exactly equals the previously emitted
caption string; hence no two consecutive captions of a successful run are
equal as raw strings (they may still share normalized content). -/
theorem c1_crossframe_amended (v : VideoFile) (rs : List (List Nat))
    (h : (process_video_local v).1 = Except.ok rs) :
    List.Chain' (fun a b => a ≠ b) rs := by
  simp only [process_video_local] at h
  by_cases ho : v.openOk = false
  · rw [if_pos ho] at h
    simp at h
  · rw [if_neg ho] at h
    by_cases hf : (sampleLoop v.height v.frames 0 0 none).fatalErr
    · rw [if_pos hf] at h
      simp at h
    · rw [if_neg hf] at h
      simp only [Except.ok.injEq] at h
      rw [← h]
      exact (sampleLoop_chain v.height v.frames 0 0 none).1

/-- Witness for C1 (amended) at the concrete 31-frame stream `vidHello`. -/
theorem c1_crossframe_amended_witness :
    (process_video_local vidHello).1 = Except.ok [cp "HELLO", cp "hello"] ∧
      List.Chain' (fun a b => a ≠ b) [cp "HELLO", cp "hello"] :=
  ⟨rfl, c1_crossframe_amended vidHello [cp "HELLO", cp "hello"] rfl⟩

/-- Claim C1 counterexample: the stream `vidHello` makes the pipeline emit
two consecutive captions "HELLO" and "hello" whose normalized contents are
equal — the suppression is on raw text, and the claimed invariant (no two
consecutive captions with equal normalized content) fails. -/
theorem c1_counterexample :
    (process_video_local vidHello).1 = Except.ok [cp "HELLO", cp "hello"] ∧
      pyNormalize (cp "HELLO") = pyNormalize (cp "hello") :=
  ⟨rfl, by decide⟩

/-- Claim C2 (code bug): when the decoder cannot open the file the
`ValueError` is raised before the `try`/`finally`, so the temp file is NOT
removed (second component `false`); on a mid-loop recognizer failure and on
normal completion the `finally` does remove it (`true`). -/
theorem c2_cleanup_on_unreadable :
    process_video_local ⟨false, 100, []⟩ = (Except.error PvErr.unreadableVideo, false) ∧
      (process_video_local ⟨true, 100, [⟨true, RecogOut.fatal⟩]⟩).2 = true ∧
      (process_video_local ⟨true, 100, []⟩).2 = true :=
  ⟨rfl, rfl, rfl⟩

/-- Claim C4 (code bug): when the frame at counter 0 fails to re-encode,
`continue` skips the counter increment, so the NEXT decoded frame (stream
position 1, not a multiple of the stride) is submitted to the recognizer;
without encode failures the submitted positions are exactly the multiples
of 30. -/
theorem c4_stride_shift :
    (sampleLoop 100 [⟨false, RecogOut.noText⟩, ⟨true, RecogOut.noText⟩] 0 0 none).submitted
        = [1] ∧
      ¬ (1 % FRAME_INTERVAL = 0) ∧
      (sampleLoop 100 (List.replicate 31 blankFrame) 0 0 none).submitted = [0, 30] :=
  ⟨rfl, by decide, rfl⟩

/-! ## Source acquisition: `download_gcs_to_tempfile`,
`download_tiktok_to_tempfile`, and claims C5, C6, C7 -/

/-- The distinct `ValueError` raise sites of the two acquisition functions. -/
inductive AcqErr where
  | sizeUnknown : AcqErr
  | tooLarge : AcqErr
  | downloadFailed : AcqErr

/-- Observable outcome of `download_gcs_to_tempfile`: the returned value or
raised error, whether a local temp file exists after the call, and whether
a byte transfer was started. -/
structure GcsOut where
  result : Except AcqErr Unit
  fileExists : Bool
  transferStarted : Bool

/-- Function `download_gcs_to_tempfile` (src/app/main.py lines 62..77).
`blobSize` is `blob.size` after `blob.reload()` (`none` = unknown);
`transferOk` is whether `blob.download_to_filename` completes.  The temp
file is created with `delete=False` after both size checks; nothing in the
function removes it when the download raises. -/
def download_gcs_to_tempfile (blobSize : Option Nat) (transferOk : Bool) : GcsOut :=
  match blobSize with
  | none => ⟨Except.error AcqErr.sizeUnknown, false, false⟩
  | some s =>
    if s > MAX_VIDEO_SIZE then ⟨Except.error AcqErr.tooLarge, false, false⟩
    else if transferOk then ⟨Except.ok (), true, true⟩
    else ⟨Except.error AcqErr.downloadFailed, true, true⟩

/-- Outcome of the `yt_dlp` call inside `download_tiktok_to_tempfile`:
it raises, extracts no info, leaves no file on disk, or downloads a file
of the given byte size. -/
inductive YdlOutcome where
  | raises : YdlOutcome
  | noInfo : YdlOutcome
  | noFile : YdlOutcome
  | downloaded : Nat → YdlOutcome

/-- Function `download_tiktok_to_tempfile` (src/app/main.py lines 80..142).
Every raise inside the `try` is caught, the temp directory is removed
(`shutil.rmtree`) and a wrapping `ValueError` is raised; on success the
file (of the returned size) is renamed and kept.  The second component
records whether a local file remains after the call.  The function checks
only `os.path.getsize(...) == 0`; it never compares against
`MAX_VIDEO_SIZE`. -/
def download_tiktok_to_tempfile (o : YdlOutcome) : Except AcqErr Nat × Bool :=
  match o with
  | YdlOutcome.raises => (Except.error AcqErr.downloadFailed, false)
  | YdlOutcome.noInfo => (Except.error AcqErr.downloadFailed, false)
  | YdlOutcome.noFile => (Except.error AcqErr.downloadFailed, false)
  | YdlOutcome.downloaded s =>
    if s = 0 then (Except.error AcqErr.downloadFailed, false)
    else (Except.ok s, true)

/-- Claim C7: a cloud object of unknown size fails with `SizeUnknown`; one
whose reported size exceeds `MAX_VIDEO_SIZE` fails with `TooLarge` before
any transfer, with no local file created and no bytes moved. -/
theorem c7_gcs_size_checks (s : Nat) (ok : Bool) :
    download_gcs_to_tempfile none ok
        = ⟨Except.error AcqErr.sizeUnknown, false, false⟩ ∧
      (s > MAX_VIDEO_SIZE →
        download_gcs_to_tempfile (some s) ok
          = ⟨Except.error AcqErr.tooLarge, false, false⟩) := by
  refine ⟨rfl, fun h => ?_⟩
  simp only [download_gcs_to_tempfile]
  rw [if_pos h]

/-- Witness for C7 at a 600 MiB object. -/
theorem c7_gcs_size_checks_witness :
    600 * 1024 * 1024 > MAX_VIDEO_SIZE ∧
      download_gcs_to_tempfile (some (600 * 1024 * 1024)) false
        = ⟨Except.error AcqErr.tooLarge, false, false⟩ :=
  ⟨by decide, (c7_gcs_size_checks (600 * 1024 * 1024) false).2 (by decide)⟩

/-- Claim C5 counterexample: when the byte transfer fails after the temp
file was created, the error propagates but the partial file still exists
after the call — the claimed removal does not happen. -/
theorem c5_counterexample :
    (download_gcs_to_tempfile (some 1000) false).result
        = Except.error AcqErr.downloadFailed ∧
      (download_gcs_to_tempfile (some 1000) false).fileExists = true :=
  ⟨rfl, rfl⟩

/-- Claim C5 (amended): for every admissible size, a failure of the byte
transfer after the temp file has been created propagates the error and
leaves the partial local file behind (no removal on the cloud path). -/
theorem c5_partial_file_amended (s : Nat) (hs : s ≤ MAX_VIDEO_SIZE) :
    (download_gcs_to_tempfile (some s) false).result
        = Except.error AcqErr.downloadFailed ∧
      (download_gcs_to_tempfile (some s) false).fileExists = true := by
  simp only [download_gcs_to_tempfile]
  rw [if_neg (Nat.not_lt.mpr hs)]
  exact ⟨rfl, rfl⟩

/-- Witness for C5 (amended) at size 1000. -/
theorem c5_partial_file_amended_witness :
    1000 ≤ MAX_VIDEO_SIZE ∧
      (download_gcs_to_tempfile (some 1000) false).result
          = Except.error AcqErr.downloadFailed ∧
      (download_gcs_to_tempfile (some 1000) false).fileExists = true :=
  ⟨by decide, c5_partial_file_amended 1000 (by decide)⟩

/-- Claim C6 counterexample: the external-platform path accepts a 600 MiB
download and returns it as a success, although 600 MiB exceeds the
configured maximum — no size bound is enforced on this path. -/
theorem c6_counterexample :
    download_tiktok_to_tempfile (YdlOutcome.downloaded (600 * 1024 * 1024))
        = (Except.ok (600 * 1024 * 1024), true) ∧
      600 * 1024 * 1024 > MAX_VIDEO_SIZE :=
  ⟨by norm_num [download_tiktok_to_tempfile], by decide⟩

/-- Claim C6 (amended): the external-platform path enforces no
maximum-size bound: every download of nonzero size is accepted and kept,
and only downloader failures, missing files and empty files are rejected
(with the temp directory cleaned up). -/
theorem c6_no_size_bound_amended (s : Nat) (hs : s ≠ 0) :
    download_tiktok_to_tempfile (YdlOutcome.downloaded s) = (Except.ok s, true) ∧
      download_tiktok_to_tempfile (YdlOutcome.downloaded 0)
        = (Except.error AcqErr.downloadFailed, false) ∧
      download_tiktok_to_tempfile YdlOutcome.raises
        = (Except.error AcqErr.downloadFailed, false) ∧
      download_tiktok_to_tempfile YdlOutcome.noInfo
        = (Except.error AcqErr.downloadFailed, false) ∧
      download_tiktok_to_tempfile YdlOutcome.noFile
        = (Except.error AcqErr.downloadFailed, false) := by
  refine ⟨?_, rfl, rfl, rfl, rfl⟩
  simp only [download_tiktok_to_tempfile]
  rw [if_neg hs]

/-- Witness for C6 (amended) at a 600 MiB download. -/
theorem c6_no_size_bound_amended_witness :
    600 * 1024 * 1024 ≠ 0 ∧
      download_tiktok_to_tempfile (YdlOutcome.downloaded (600 * 1024 * 1024))
        = (Except.ok (600 * 1024 * 1024), true) :=
  ⟨by decide, (c6_no_size_bound_amended (600 * 1024 * 1024) (by decide)).1⟩
